import Mathlib

/-!
Verification of the ClickUp MCP server core (clickup_mcp_server.py):
the JSON-RPC dispatcher (mcp_endpoint), the tool catalog (get_tools_list)
and the tool executor (execute_tool) with its ten tool implementations.

The remote ClickUp REST API is an external collaborator; it is modelled as
an oracle (structure Api) mapping endpoint strings to JSON responses.
Python values parsed from JSON bodies are modelled by the inductive Json.
Python dictionaries are modelled as insertion-ordered association lists
(duplicate keys cannot arise from parsed JSON; the first binding wins).
Python exceptions are modelled by Except String; the string carries the
message text str(e) that the dispatcher places in the error envelope.
Exact exception message wording is abbreviated where the source relies on
Python built-in exception formatting; no verified property depends on it.
-/

/-- A JSON value, the model of the Python objects handled by the server. -/
inductive Json where
  | null : Json
  | bool (b : Bool) : Json
  | num (n : Int) : Json
  | str (s : String) : Json
  | arr (items : List Json) : Json
  | obj (fields : List (String × Json)) : Json

/-- First binding of key k in a Python dict modelled as an assoc list. -/
def lookupField (k : String) : List (String × Json) → Option Json
  | [] => none
  | (k2, v) :: rest => if k2 = k then some v else lookupField k rest

/-- Removal of every binding of key k, the model of dict.pop on the
assoc-list representation (parsed JSON dicts never repeat a key). -/
def eraseKey (k : String) : List (String × Json) → List (String × Json)
  | [] => []
  | (k2, v) :: rest => if k2 = k then eraseKey k rest else (k2, v) :: eraseKey k rest

mutual

/-- Python str() interpolation of a value into an f-string, as used for
endpoint paths such as task/(task_id) built in the source. Composite values
are rendered in a simplified repr-like form; every endpoint the claims
touch interpolates a string, rendered verbatim, or None. -/
def Json.render : Json → String
  | .null => "None"
  | .bool b => if b then "True" else "False"
  | .num n => toString n
  | .str s => s
  | .arr items => "[" ++ Json.renderItems items ++ "]"
  | .obj fields => "\x7b" ++ Json.renderFields fields ++ "\x7d"

/-- Renders the elements of a JSON array, comma separated. -/
def Json.renderItems : List Json → String
  | [] => ""
  | [x] => Json.render x
  | x :: y :: rest => Json.render x ++ ", " ++ Json.renderItems (y :: rest)

/-- Renders the fields of a JSON object, comma separated. -/
def Json.renderFields : List (String × Json) → String
  | [] => ""
  | [(k, v)] => k ++ ": " ++ Json.render v
  | (k, v) :: f :: rest => k ++ ": " ++ Json.render v ++ ", " ++ Json.renderFields (f :: rest)

end

mutual

/-- Model of json.dumps as used to serialise a tool result into the text
content block (the source passes indent=2; whitespace layout is not
modelled, and no verified property reads the serialised text). -/
def Json.dumps : Json → String
  | .null => "null"
  | .bool b => if b then "true" else "false"
  | .num n => toString n
  | .str s => "\"" ++ s ++ "\""
  | .arr items => "[" ++ Json.dumpsItems items ++ "]"
  | .obj fields => "\x7b" ++ Json.dumpsFields fields ++ "\x7d"

/-- Serialises the elements of a JSON array, comma separated. -/
def Json.dumpsItems : List Json → String
  | [] => ""
  | [x] => Json.dumps x
  | x :: y :: rest => Json.dumps x ++ ", " ++ Json.dumpsItems (y :: rest)

/-- Serialises the fields of a JSON object, comma separated. -/
def Json.dumpsFields : List (String × Json) → String
  | [] => ""
  | [(k, v)] => "\"" ++ k ++ "\": " ++ Json.dumps v
  | (k, v) :: f :: rest => "\"" ++ k ++ "\": " ++ Json.dumps v ++ ", " ++ Json.dumpsFields (f :: rest)

end

/-- Python subscript d[k]: KeyError when the key is absent, TypeError when
the value is not a dict. -/
def Json.getItem (j : Json) (k : String) : Except String Json :=
  match j with
  | .obj fields =>
    match lookupField k fields with
    | some v => .ok v
    | none => .error ("KeyError: " ++ k)
  | _ => .error ("TypeError: value is not subscriptable with key " ++ k)

/-- Python subscript a[i] on a list: IndexError when out of range,
TypeError when the value is not a list. -/
def Json.getIdx (j : Json) (i : Nat) : Except String Json :=
  match j with
  | .arr items =>
    match items.get? i with
    | some v => .ok v
    | none => .error "IndexError: list index out of range"
  | _ => .error "TypeError: value is not indexable"

/-- Python iteration over a value: only lists are iterable in this model. -/
def Json.asArr (j : Json) : Except String (List Json) :=
  match j with
  | .arr items => .ok items
  | _ => .error "TypeError: value is not iterable"

/-- Python dict.get(k) with its None default; AttributeError on a
non-dict receiver. -/
def pyDictGet (j : Json) (k : String) : Except String Json :=
  match j with
  | .obj fields => .ok ((lookupField k fields).getD .null)
  | _ => .error "AttributeError: get called on a non-dict value"

/-- Python .lower(): AttributeError unless the receiver is a string. -/
def pyLower (j : Json) : Except String String :=
  match j with
  | .str s => .ok s.toLower
  | _ => .error "AttributeError: lower called on a non-string value"

/-- Substring test on character lists, the model of the Python operator
needle in hay on strings. -/
def charsHaveSub (needle : List Char) : List Char → Bool
  | [] => needle.isEmpty
  | c :: rest => needle.isPrefixOf (c :: rest) || charsHaveSub needle rest

/-- Python needle in hay for strings: substring containment. -/
def pyInStr (needle hay : String) : Bool :=
  charsHaveSub needle.toList hay.toList

/-- Python truthiness of a JSON-shaped value, as tested by if list_id. -/
def pyTruthy (j : Json) : Bool :=
  match j with
  | .null => false
  | .bool b => b
  | .num n => !(n == 0)
  | .str s => !(s == "")
  | .arr items => !items.isEmpty
  | .obj fields => !fields.isEmpty

/-- One HTTP request issued through the ClickUpAPI client, recorded with
the endpoint string exactly as the source builds it. -/
inductive RemoteCall where
  | get (endpoint : String) : RemoteCall
  | post (endpoint : String) (body : Json) : RemoteCall
  | put (endpoint : String) (body : Json) : RemoteCall
  | delete (endpoint : String) : RemoteCall

/-- The remote ClickUp REST API (plus the requests library) as an oracle:
for each verb, a response or a raised failure per endpoint. The source
client (class ClickUpAPI) raises on non-2xx and decodes JSON otherwise;
both outcomes are folded into Except String Json. -/
structure Api where
  get : String → Except String Json
  post : String → Json → Except String Json
  put : String → Json → Except String Json
  delete : String → Except String Json

/-- ClickUpAPI.get: one GET request, recorded in the trace. -/
def apiGet (api : Api) (endpoint : String) : Except String Json × List RemoteCall :=
  (api.get endpoint, [RemoteCall.get endpoint])

/-- ClickUpAPI.post: one POST request with a JSON body. -/
def apiPost (api : Api) (endpoint : String) (body : Json) : Except String Json × List RemoteCall :=
  (api.post endpoint body, [RemoteCall.post endpoint body])

/-- ClickUpAPI.put: one PUT request with a JSON body. -/
def apiPut (api : Api) (endpoint : String) (body : Json) : Except String Json × List RemoteCall :=
  (api.put endpoint body, [RemoteCall.put endpoint body])

/-- The check query.lower() in item["name"].lower() performed by
search_workspace on each list and each task, in source evaluation order. -/
def matchesQuery (query item : Json) : Except String Bool :=
  match pyLower query with
  | .error e => .error e
  | .ok ql =>
    match item.getItem "name" with
    | .error e => .error e
    | .ok nameVal =>
      match pyLower nameVal with
      | .error e => .error e
      | .ok nl => .ok (pyInStr ql nl)

/-- Inner loop of search_workspace over the tasks of one list: appends to
the accumulator each task document whose name matches the query. -/
def searchTasksLoop (query : Json) (tasks : List Json) (acc : List Json) :
    Except String (List Json) :=
  match tasks with
  | [] => .ok acc
  | task :: rest =>
    match matchesQuery query task with
    | .error e => .error e
    | .ok b => searchTasksLoop query rest (if b then acc ++ [task] else acc)

/-- Middle loop of search_workspace over the lists of one space: filters
list documents by name, fetches the tasks of each list and filters those. -/
def searchListsLoop (api : Api) (query : Json) (lists : List Json)
    (listAcc taskAcc : List Json) (tr : List RemoteCall) :
    Except String (List Json × List Json) × List RemoteCall :=
  match lists with
  | [] => (.ok (listAcc, taskAcc), tr)
  | lst :: rest =>
    match matchesQuery query lst with
    | .error e => (.error e, tr)
    | .ok b =>
      let listAcc2 := if b then listAcc ++ [lst] else listAcc
      match lst.getItem "id" with
      | .error e => (.error e, tr)
      | .ok lid =>
        let ep := "list/" ++ Json.render lid ++ "/task?archived=false"
        match api.get ep with
        | .error e => (.error e, tr ++ [RemoteCall.get ep])
        | .ok tasksResp =>
          match tasksResp.getItem "tasks" with
          | .error e => (.error e, tr ++ [RemoteCall.get ep])
          | .ok tasksVal =>
            match tasksVal.asArr with
            | .error e => (.error e, tr ++ [RemoteCall.get ep])
            | .ok taskDocs =>
              match searchTasksLoop query taskDocs taskAcc with
              | .error e => (.error e, tr ++ [RemoteCall.get ep])
              | .ok taskAcc2 =>
                searchListsLoop api query rest listAcc2 taskAcc2 (tr ++ [RemoteCall.get ep])

/-- Outer loop of search_workspace over the spaces of the workspace. -/
def searchSpacesLoop (api : Api) (query : Json) (spaces : List Json)
    (listAcc taskAcc : List Json) (tr : List RemoteCall) :
    Except String (List Json × List Json) × List RemoteCall :=
  match spaces with
  | [] => (.ok (listAcc, taskAcc), tr)
  | sp :: rest =>
    match sp.getItem "id" with
    | .error e => (.error e, tr)
    | .ok sid =>
      let ep := "space/" ++ Json.render sid ++ "/list?archived=false"
      match api.get ep with
      | .error e => (.error e, tr ++ [RemoteCall.get ep])
      | .ok listsResp =>
        match listsResp.getItem "lists" with
        | .error e => (.error e, tr ++ [RemoteCall.get ep])
        | .ok listsVal =>
          match listsVal.asArr with
          | .error e => (.error e, tr ++ [RemoteCall.get ep])
          | .ok listDocs =>
            match searchListsLoop api query listDocs listAcc taskAcc (tr ++ [RemoteCall.get ep]) with
            | (.error e, tr2) => (.error e, tr2)
            | (.ok (listAcc2, taskAcc2), tr2) =>
              searchSpacesLoop api query rest listAcc2 taskAcc2 tr2

/-- ClickUpMCPTools.search_workspace: fetches the first team, its spaces,
all lists per space and all tasks per list, returning the task and list
documents whose name contains the query case-insensitively together with
every space document. -/
def search_workspace (api : Api) (query : Json) : Except String Json × List RemoteCall :=
  let tr0 := [RemoteCall.get "team"]
  match api.get "team" with
  | .error e => (.error e, tr0)
  | .ok teams =>
    match teams.getItem "teams" with
    | .error e => (.error e, tr0)
    | .ok teamsArr =>
      match teamsArr.getIdx 0 with
      | .error e => (.error e, tr0)
      | .ok team0 =>
        match team0.getItem "id" with
        | .error e => (.error e, tr0)
        | .ok tid =>
          let ep := "team/" ++ Json.render tid ++ "/space?archived=false"
          let tr1 := tr0 ++ [RemoteCall.get ep]
          match api.get ep with
          | .error e => (.error e, tr1)
          | .ok spacesResp =>
            match spacesResp.getItem "spaces" with
            | .error e => (.error e, tr1)
            | .ok spacesVal =>
              match spacesVal.asArr with
              | .error e => (.error e, tr1)
              | .ok spaceDocs =>
                match searchSpacesLoop api query spaceDocs [] [] tr1 with
                | (.error e, tr2) => (.error e, tr2)
                | (.ok (listAcc, taskAcc), tr2) =>
                  (.ok (.obj [("tasks", .arr taskAcc), ("lists", .arr listAcc),
                              ("spaces", spacesVal)]), tr2)

/-- Loop of get_workspace_hierarchy over spaces, building one
(id, name, lists) document per space. -/
def hierarchyLoop (api : Api) (spaces : List Json) (acc : List Json) (tr : List RemoteCall) :
    Except String (List Json) × List RemoteCall :=
  match spaces with
  | [] => (.ok acc, tr)
  | sp :: rest =>
    match sp.getItem "id" with
    | .error e => (.error e, tr)
    | .ok sid =>
      match sp.getItem "name" with
      | .error e => (.error e, tr)
      | .ok snm =>
        let ep := "space/" ++ Json.render sid ++ "/list?archived=false"
        match api.get ep with
        | .error e => (.error e, tr ++ [RemoteCall.get ep])
        | .ok listsResp =>
          match listsResp.getItem "lists" with
          | .error e => (.error e, tr ++ [RemoteCall.get ep])
          | .ok listsVal =>
            hierarchyLoop api rest
              (acc ++ [.obj [("id", sid), ("name", snm), ("lists", listsVal)]])
              (tr ++ [RemoteCall.get ep])

/-- ClickUpMCPTools.get_workspace_hierarchy. -/
def get_workspace_hierarchy (api : Api) : Except String Json × List RemoteCall :=
  let tr0 := [RemoteCall.get "team"]
  match api.get "team" with
  | .error e => (.error e, tr0)
  | .ok teams =>
    match teams.getItem "teams" with
    | .error e => (.error e, tr0)
    | .ok teamsArr =>
      match teamsArr.getIdx 0 with
      | .error e => (.error e, tr0)
      | .ok team0 =>
        match team0.getItem "id" with
        | .error e => (.error e, tr0)
        | .ok tid =>
          let ep := "team/" ++ Json.render tid ++ "/space?archived=false"
          let tr1 := tr0 ++ [RemoteCall.get ep]
          match api.get ep with
          | .error e => (.error e, tr1)
          | .ok spacesResp =>
            match spacesResp.getItem "spaces" with
            | .error e => (.error e, tr1)
            | .ok spacesVal =>
              match spacesVal.asArr with
              | .error e => (.error e, tr1)
              | .ok spaceDocs =>
                match hierarchyLoop api spaceDocs [] tr1 with
                | (.error e, tr2) => (.error e, tr2)
                | (.ok spaceDatas, tr2) =>
                  (.ok (.obj [("workspace", team0), ("spaces", .arr spaceDatas)]), tr2)

/-- Inner loop of the get_workspace_tasks fan-out: extends the accumulator
with the tasks of each list of one space. -/
def allTasksListsLoop (api : Api) (lists : List Json) (acc : List Json) (tr : List RemoteCall) :
    Except String (List Json) × List RemoteCall :=
  match lists with
  | [] => (.ok acc, tr)
  | lst :: rest =>
    match lst.getItem "id" with
    | .error e => (.error e, tr)
    | .ok lid =>
      let ep := "list/" ++ Json.render lid ++ "/task?archived=false"
      match api.get ep with
      | .error e => (.error e, tr ++ [RemoteCall.get ep])
      | .ok tasksResp =>
        match tasksResp.getItem "tasks" with
        | .error e => (.error e, tr ++ [RemoteCall.get ep])
        | .ok tasksVal =>
          match tasksVal.asArr with
          | .error e => (.error e, tr ++ [RemoteCall.get ep])
          | .ok taskDocs => allTasksListsLoop api rest (acc ++ taskDocs) (tr ++ [RemoteCall.get ep])

/-- Outer loop of the get_workspace_tasks fan-out over spaces. -/
def allTasksSpacesLoop (api : Api) (spaces : List Json) (acc : List Json) (tr : List RemoteCall) :
    Except String (List Json) × List RemoteCall :=
  match spaces with
  | [] => (.ok acc, tr)
  | sp :: rest =>
    match sp.getItem "id" with
    | .error e => (.error e, tr)
    | .ok sid =>
      let ep := "space/" ++ Json.render sid ++ "/list?archived=false"
      match api.get ep with
      | .error e => (.error e, tr ++ [RemoteCall.get ep])
      | .ok listsResp =>
        match listsResp.getItem "lists" with
        | .error e => (.error e, tr ++ [RemoteCall.get ep])
        | .ok listsVal =>
          match listsVal.asArr with
          | .error e => (.error e, tr ++ [RemoteCall.get ep])
          | .ok listDocs =>
            match allTasksListsLoop api listDocs acc (tr ++ [RemoteCall.get ep]) with
            | (.error e, tr2) => (.error e, tr2)
            | (.ok acc2, tr2) => allTasksSpacesLoop api rest acc2 tr2

/-- ClickUpMCPTools.get_workspace_tasks: single-list fetch when a truthy
list_id filter is present, else the full fan-out flattened. -/
def get_workspace_tasks (api : Api) (filters : Json) : Except String Json × List RemoteCall :=
  match pyDictGet filters "list_id" with
  | .error e => (.error e, [])
  | .ok lid =>
    if pyTruthy lid then
      let ep := "list/" ++ Json.render lid ++ "/task?archived=false"
      match api.get ep with
      | .error e => (.error e, [RemoteCall.get ep])
      | .ok tasksResp =>
        match tasksResp.getItem "tasks" with
        | .error e => (.error e, [RemoteCall.get ep])
        | .ok tasksVal => (.ok tasksVal, [RemoteCall.get ep])
    else
      let tr0 := [RemoteCall.get "team"]
      match api.get "team" with
      | .error e => (.error e, tr0)
      | .ok teams =>
        match teams.getItem "teams" with
        | .error e => (.error e, tr0)
        | .ok teamsArr =>
          match teamsArr.getIdx 0 with
          | .error e => (.error e, tr0)
          | .ok team0 =>
            match team0.getItem "id" with
            | .error e => (.error e, tr0)
            | .ok tid =>
              let ep := "team/" ++ Json.render tid ++ "/space?archived=false"
              let tr1 := tr0 ++ [RemoteCall.get ep]
              match api.get ep with
              | .error e => (.error e, tr1)
              | .ok spacesResp =>
                match spacesResp.getItem "spaces" with
                | .error e => (.error e, tr1)
                | .ok spacesVal =>
                  match spacesVal.asArr with
                  | .error e => (.error e, tr1)
                  | .ok spaceDocs =>
                    match allTasksSpacesLoop api spaceDocs [] tr1 with
                    | (.error e, tr2) => (.error e, tr2)
                    | (.ok allTasks, tr2) => (.ok (.arr allTasks), tr2)

/-- ClickUpMCPTools.create_task: requires list_id and name, defaults the
description to the empty string and the status to "to do", includes a
priority field exactly when one was supplied, then issues one POST. -/
def create_task (api : Api) (arguments : Json) : Except String Json × List RemoteCall :=
  match arguments with
  | .obj fields =>
    match lookupField "list_id" fields with
    | none => (.error "KeyError: list_id", [])
    | some lid =>
      match lookupField "name" fields with
      | none => (.error "KeyError: name", [])
      | some nm =>
        let task_data := [("name", nm),
          ("description", (lookupField "description" fields).getD (.str "")),
          ("status", (lookupField "status" fields).getD (.str "to do"))]
        let task_data :=
          match lookupField "priority" fields with
          | some pv => task_data ++ [("priority", pv)]
          | none => task_data
        apiPost api ("list/" ++ Json.render lid ++ "/task") (.obj task_data)
  | _ => (.error "TypeError: argument access on a non-dict value", [])

/-- ClickUpMCPTools.get_task. -/
def get_task (api : Api) (task_id : Json) : Except String Json × List RemoteCall :=
  apiGet api ("task/" ++ Json.render task_id)

/-- ClickUpMCPTools.update_task: pops task_id from the caller-supplied
argument dict (mutating it) and issues one PUT whose body is the mutated
dict. The second component is the final state of the argument dict. -/
def update_task (api : Api) (arguments : Json) :
    (Except String Json × List RemoteCall) × Json :=
  match arguments with
  | .obj fields =>
    match lookupField "task_id" fields with
    | none => ((.error "KeyError: task_id", []), arguments)
    | some tid =>
      let remaining := eraseKey "task_id" fields
      (apiPut api ("task/" ++ Json.render tid) (.obj remaining), .obj remaining)
  | _ => ((.error "TypeError: pop called on a non-dict value", []), arguments)

/-- ClickUpMCPTools.create_task_comment. -/
def create_task_comment (api : Api) (task_id comment_text : Json) :
    Except String Json × List RemoteCall :=
  apiPost api ("task/" ++ Json.render task_id ++ "/comment")
    (.obj [("comment_text", comment_text)])

/-- ClickUpMCPTools.get_task_comments. -/
def get_task_comments (api : Api) (task_id : Json) : Except String Json × List RemoteCall :=
  apiGet api ("task/" ++ Json.render task_id ++ "/comment")

/-- ClickUpMCPTools.get_workspace_members: fetches the team list, then
the document of the first team, and returns that document unchanged. -/
def get_workspace_members (api : Api) : Except String Json × List RemoteCall :=
  let tr0 := [RemoteCall.get "team"]
  match api.get "team" with
  | .error e => (.error e, tr0)
  | .ok teams =>
    match teams.getItem "teams" with
    | .error e => (.error e, tr0)
    | .ok teamsArr =>
      match teamsArr.getIdx 0 with
      | .error e => (.error e, tr0)
      | .ok team0 =>
        match team0.getItem "id" with
        | .error e => (.error e, tr0)
        | .ok tid =>
          let ep := "team/" ++ Json.render tid
          (api.get ep, tr0 ++ [RemoteCall.get ep])

/-- ClickUpMCPTools.create_list. -/
def create_list (api : Api) (space_id nm : Json) : Except String Json × List RemoteCall :=
  apiPost api ("space/" ++ Json.render space_id ++ "/list") (.obj [("name", nm)])

/-- Tool metadata, the model of the pydantic ToolInfo. -/
structure ToolInfo where
  name : String
  description : String
  inputSchema : Json

/-- ToolInfo.dict(): the JSON document sent for one catalog entry. -/
def ToolInfo.toDict (t : ToolInfo) : Json :=
  .obj [("name", .str t.name), ("description", .str t.description),
        ("inputSchema", t.inputSchema)]

/-- ClickUpMCPTools.get_tools_list: the fixed catalog of the ten MCP
tools, in source order, with their declared input schemas. -/
def get_tools_list : List ToolInfo :=
  [⟨"search_workspace",
    "Search for tasks, lists, folders, and docs across the workspace",
    .obj [("type", .str "object"),
          ("properties", .obj [("query",
            .obj [("type", .str "string"), ("description", .str "Search query")])]),
          ("required", .arr [.str "query"])]⟩,
   ⟨"get_workspace_hierarchy",
    "Get the complete workspace structure with spaces, folders, and lists",
    .obj [("type", .str "object"), ("properties", .obj [])]⟩,
   ⟨"get_workspace_tasks",
    "Get all tasks in the workspace with optional filters",
    .obj [("type", .str "object"),
          ("properties", .obj [
            ("space_id", .obj [("type", .str "string"), ("description", .str "Filter by space ID")]),
            ("list_id", .obj [("type", .str "string"), ("description", .str "Filter by list ID")]),
            ("assignee", .obj [("type", .str "string"), ("description", .str "Filter by assignee ID")])])]⟩,
   ⟨"create_task",
    "Create a new task in a list",
    .obj [("type", .str "object"),
          ("properties", .obj [
            ("list_id", .obj [("type", .str "string"),
              ("description", .str "List ID where task will be created")]),
            ("name", .obj [("type", .str "string"), ("description", .str "Task name")]),
            ("description", .obj [("type", .str "string"), ("description", .str "Task description")]),
            ("status", .obj [("type", .str "string"),
              ("description", .str "Task status (e.g., to do, in progress)")]),
            ("priority", .obj [("type", .str "integer"),
              ("description", .str "Priority level (1-4)")])]),
          ("required", .arr [.str "list_id", .str "name"])]⟩,
   ⟨"get_task",
    "Get detailed information about a specific task",
    .obj [("type", .str "object"),
          ("properties", .obj [("task_id",
            .obj [("type", .str "string"), ("description", .str "Task ID")])]),
          ("required", .arr [.str "task_id"])]⟩,
   ⟨"update_task",
    "Update an existing task",
    .obj [("type", .str "object"),
          ("properties", .obj [
            ("task_id", .obj [("type", .str "string"), ("description", .str "Task ID")]),
            ("name", .obj [("type", .str "string"), ("description", .str "New task name")]),
            ("description", .obj [("type", .str "string"), ("description", .str "New description")]),
            ("status", .obj [("type", .str "string"), ("description", .str "New status")])]),
          ("required", .arr [.str "task_id"])]⟩,
   ⟨"create_task_comment",
    "Add a comment to a task",
    .obj [("type", .str "object"),
          ("properties", .obj [
            ("task_id", .obj [("type", .str "string"), ("description", .str "Task ID")]),
            ("comment_text", .obj [("type", .str "string"), ("description", .str "Comment text")])]),
          ("required", .arr [.str "task_id", .str "comment_text"])]⟩,
   ⟨"get_task_comments",
    "Get all comments from a task",
    .obj [("type", .str "object"),
          ("properties", .obj [("task_id",
            .obj [("type", .str "string"), ("description", .str "Task ID")])]),
          ("required", .arr [.str "task_id"])]⟩,
   ⟨"get_workspace_members",
    "Get all members in the workspace",
    .obj [("type", .str "object"), ("properties", .obj [])]⟩,
   ⟨"create_list",
    "Create a new list in a space",
    .obj [("type", .str "object"),
          ("properties", .obj [
            ("space_id", .obj [("type", .str "string"), ("description", .str "Space ID")]),
            ("name", .obj [("type", .str "string"), ("description", .str "List name")])]),
          ("required", .arr [.str "space_id", .str "name"])]⟩]

/-- Outcome of one executor invocation: the tool result or raised fault,
the remote calls issued, and the final state of the caller-supplied
argument dict (update_task mutates it in place; every other branch leaves
it untouched). -/
structure ToolResult where
  res : Except String Json
  calls : List RemoteCall
  argsAfter : Json

/-- ClickUpMCPTools.execute_tool: string dispatch on the tool name. The
name reaches this function as whatever JSON value params carried; a value
other than a registered tool name string falls through to the
ValueError("Unknown tool") branch, whose message interpolates the value. -/
def execute_tool (api : Api) (tool_name : Json) (arguments : Json) : ToolResult :=
  match tool_name with
  | .str "search_workspace" =>
    match pyDictGet arguments "query" with
    | .error e => ⟨.error e, [], arguments⟩
    | .ok q =>
      match search_workspace api q with
      | (r, c) => ⟨r, c, arguments⟩
  | .str "get_workspace_hierarchy" =>
    match get_workspace_hierarchy api with
    | (r, c) => ⟨r, c, arguments⟩
  | .str "get_workspace_tasks" =>
    match get_workspace_tasks api arguments with
    | (r, c) => ⟨r, c, arguments⟩
  | .str "create_task" =>
    match create_task api arguments with
    | (r, c) => ⟨r, c, arguments⟩
  | .str "get_task" =>
    match pyDictGet arguments "task_id" with
    | .error e => ⟨.error e, [], arguments⟩
    | .ok tid =>
      match get_task api tid with
      | (r, c) => ⟨r, c, arguments⟩
  | .str "update_task" =>
    match update_task api arguments with
    | ((r, c), a2) => ⟨r, c, a2⟩
  | .str "create_task_comment" =>
    match pyDictGet arguments "task_id" with
    | .error e => ⟨.error e, [], arguments⟩
    | .ok tid =>
      match pyDictGet arguments "comment_text" with
      | .error e => ⟨.error e, [], arguments⟩
      | .ok ct =>
        match create_task_comment api tid ct with
        | (r, c) => ⟨r, c, arguments⟩
  | .str "get_task_comments" =>
    match pyDictGet arguments "task_id" with
    | .error e => ⟨.error e, [], arguments⟩
    | .ok tid =>
      match get_task_comments api tid with
      | (r, c) => ⟨r, c, arguments⟩
  | .str "get_workspace_members" =>
    match get_workspace_members api with
    | (r, c) => ⟨r, c, arguments⟩
  | .str "create_list" =>
    match pyDictGet arguments "space_id" with
    | .error e => ⟨.error e, [], arguments⟩
    | .ok sid =>
      match pyDictGet arguments "name" with
      | .error e => ⟨.error e, [], arguments⟩
      | .ok nm =>
        match create_list api sid nm with
        | (r, c) => ⟨r, c, arguments⟩
  | other => ⟨.error ("Unknown tool: " ++ Json.render other), [], arguments⟩

/-- MCP JSON-RPC 2.0 request, after pydantic validation of the body
(jsonrpc defaults to "2.0", id is an optional integer, method is a
required string, params an optional dict). -/
structure MCPRequest where
  jsonrpc : String
  id : Option Int
  method : String
  params : Option (List (String × Json))

/-- The error member of a JSON-RPC response: code and message. -/
structure MCPError where
  code : Int
  message : String

/-- MCP JSON-RPC 2.0 response as constructed by the dispatcher. -/
structure MCPResponse where
  jsonrpc : String
  id : Option Int
  result : Option Json
  error : Option MCPError

/-- The fixed result document of the initialize method. -/
def initResult : Json :=
  .obj [("protocolVersion", .str "2024-11-05"),
        ("capabilities", .obj [("tools", .obj [])]),
        ("serverInfo", .obj [("name", .str "clickup-mcp-server"),
                             ("version", .str "1.0.0")])]

/-- The body of the try block of mcp_endpoint: method routing. Returns the
result document, or the message of the exception the source would raise. -/
def mcp_dispatch (api : Api) (request : MCPRequest) : Except String Json :=
  let params := request.params.getD []
  if request.method = "initialize" then
    .ok initResult
  else if request.method = "tools/list" then
    .ok (.obj [("tools", .arr (get_tools_list.map ToolInfo.toDict))])
  else if request.method = "tools/call" then
    let tool_name := (lookupField "name" params).getD .null
    let arguments := (lookupField "arguments" params).getD (.obj [])
    match (execute_tool api tool_name arguments).res with
    | .error e => .error e
    | .ok toolOut =>
      .ok (.obj [("content", .arr [.obj [("type", .str "text"),
                                         ("text", .str (Json.dumps toolOut))]]),
                 ("isError", .bool false)])
  else
    .error ("Unknown method: " ++ request.method)

/-- The POST /mcp handler: wraps the routing outcome into the response
envelope, catching every raised fault as the fixed -32603 error. The
function is total, so no fault escapes to the transport layer. -/
def mcp_endpoint (api : Api) (request : MCPRequest) : MCPResponse :=
  match mcp_dispatch api request with
  | .ok result => ⟨"2.0", request.id, some result, none⟩
  | .error e => ⟨"2.0", request.id, none, some ⟨-32603, e⟩⟩

/-- A task document fetched from the remote API: its id and name fields
(the only ones the core reads) plus arbitrary further fields. -/
structure WTask where
  id : String
  name : String
  extra : List (String × Json)

/-- The JSON document of a task as the mock remote returns it. -/
def WTask.toJson (t : WTask) : Json :=
  .obj (("id", .str t.id) :: ("name", .str t.name) :: t.extra)

/-- A list document together with the tasks its task endpoint returns. -/
structure WList where
  id : String
  name : String
  extra : List (String × Json)
  tasks : List WTask

/-- The JSON document of a list as the mock remote returns it. -/
def WList.toJson (l : WList) : Json :=
  .obj (("id", .str l.id) :: ("name", .str l.name) :: l.extra)

/-- A space document together with the lists its list endpoint returns. -/
structure WSpace where
  id : String
  name : String
  extra : List (String × Json)
  lists : List WList

/-- The JSON document of a space as the mock remote returns it. -/
def WSpace.toJson (s : WSpace) : Json :=
  .obj (("id", .str s.id) :: ("name", .str s.name) :: s.extra)

/-- The contents of one remote workspace: the first (and only) team, its
detail document, and its spaces with their lists and tasks. -/
structure Workspace where
  teamId : String
  teamExtra : List (String × Json)
  teamDetail : Json
  spaces : List WSpace

/-- Response of GET team for the mock remote. -/
def teamsDoc (W : Workspace) : Json :=
  .obj [("teams", .arr [.obj (("id", .str W.teamId) :: W.teamExtra)])]

/-- Response of the space listing endpoint for the mock remote. -/
def spacesDoc (W : Workspace) : Json :=
  .obj [("spaces", .arr (W.spaces.map WSpace.toJson))]

/-- Response of the list listing endpoint of one space. -/
def listsDoc (s : WSpace) : Json :=
  .obj [("lists", .arr (s.lists.map WList.toJson))]

/-- Response of the task listing endpoint of one list. -/
def tasksDoc (l : WList) : Json :=
  .obj [("tasks", .arr (l.tasks.map WTask.toJson))]

/-- The GET endpoint table of the mock remote induced by a workspace:
each endpoint string the core builds, paired with its response. -/
def endpointTable (W : Workspace) : List (String × Json) :=
  ("team", teamsDoc W) ::
  ("team/" ++ W.teamId, W.teamDetail) ::
  ("team/" ++ W.teamId ++ "/space?archived=false", spacesDoc W) ::
  W.spaces.flatMap (fun sp =>
    ("space/" ++ sp.id ++ "/list?archived=false", listsDoc sp) ::
    sp.lists.map (fun l => ("list/" ++ l.id ++ "/task?archived=false", tasksDoc l)))

/-- The endpoint strings of the mock remote. -/
def endpointKeys (W : Workspace) : List String :=
  (endpointTable W).map Prod.fst

/-- The mock remote API induced by a workspace: GET answers from the
endpoint table, every other request fails like a 404 would. -/
def apiOfWorkspace (W : Workspace) : Api where
  get := fun e =>
    match lookupField e (endpointTable W) with
    | some j => .ok j
    | none => .error ("404 Not Found: " ++ e)
  post := fun e _ => .error ("404 Not Found: " ++ e)
  put := fun e _ => .error ("404 Not Found: " ++ e)
  delete := fun e => .error ("404 Not Found: " ++ e)

/-- All tasks of a workspace in fan-out order (space order, then list
order within the space, then task order within the list). -/
def Workspace.allTasks (W : Workspace) : List WTask :=
  W.spaces.flatMap (fun sp => sp.lists.flatMap WList.tasks)

/-- All lists of a workspace in fan-out order. -/
def Workspace.allLists (W : Workspace) : List WList :=
  W.spaces.flatMap WSpace.lists

/-- The case-insensitive name filter of search_workspace, applied to a
name: query.lower() in name.lower(). -/
def nameMatches (q nm : String) : Bool :=
  pyInStr q.toLower nm.toLower

/-- A small concrete workspace used to instantiate hypotheses: one space
with two lists; the first list holds two tasks. -/
def exWorkspace : Workspace :=
  ⟨"T1", [("name", .str "Acme")],
   .obj [("team", .obj [("id", .str "T1"),
                        ("members", .arr [.obj [("username", .str "alice")]])])],
   [⟨"S1", "Engineering", [],
     [⟨"L1", "Sprint Backlog", [],
       [⟨"TK1", "Fix login bug", []⟩, ⟨"TK2", "Write docs", []⟩]⟩,
      ⟨"L2", "Bugs", [], []⟩]⟩]⟩

/-- The mock API over the concrete example workspace. -/
def exApi : Api := apiOfWorkspace exWorkspace

/-- An API oracle on which every remote request fails. -/
def failApi : Api where
  get := fun e => .error ("boom: " ++ e)
  post := fun e _ => .error ("boom: " ++ e)
  put := fun e _ => .error ("boom: " ++ e)
  delete := fun e => .error ("boom: " ++ e)

/-- Whether a JSON value is an array (a Python list). -/
def Json.isArr : Json → Bool
  | .arr _ => true
  | _ => false

/-- The payload of a successful tool outcome, or null on failure. -/
def okPayload (r : Except String Json) : Json :=
  match r with
  | .ok v => v
  | .error _ => .null

/-- Claim C1: every fault raised downstream of the /mcp dispatcher
(unknown method, unknown tool, remote failure, malformed argument) is
caught at the dispatcher boundary and returned as the well-formed RPC
error envelope with code -32603 and the fault message; mcp_endpoint is a
total function into MCPResponse, so no exception escapes to the
transport layer. -/
theorem mcp_error_envelope (api : Api) (request : MCPRequest) (m : String)
    (h : mcp_dispatch api request = .error m) :
    mcp_endpoint api request = ⟨"2.0", request.id, none, some ⟨-32603, m⟩⟩ := by
  simp [mcp_endpoint, h]

/-- Witness for C1: an unknown method produces the -32603 envelope. -/
theorem mcp_error_envelope_witness :
    mcp_dispatch failApi ⟨"2.0", some 7, "bogus", none⟩ = .error "Unknown method: bogus" ∧
    mcp_endpoint failApi ⟨"2.0", some 7, "bogus", none⟩ =
      ⟨"2.0", some 7, none, some ⟨-32603, "Unknown method: bogus"⟩⟩ :=
  ⟨rfl, mcp_error_envelope failApi ⟨"2.0", some 7, "bogus", none⟩ "Unknown method: bogus" rfl⟩

/-- Claim C2: the response id equals the request id, on the result path
and on the error path alike. -/
theorem mcp_id_roundtrip (api : Api) (request : MCPRequest) (i : Int)
    (h : request.id = some i) :
    (mcp_endpoint api request).id = some i := by
  cases hd : mcp_dispatch api request <;> simp [mcp_endpoint, hd, h]

/-- Witness for C2 at a concrete request carrying id 7. -/
theorem mcp_id_roundtrip_witness :
    (⟨"2.0", some 7, "tools/list", none⟩ : MCPRequest).id = some 7 ∧
    (mcp_endpoint failApi ⟨"2.0", some 7, "tools/list", none⟩).id = some 7 :=
  ⟨rfl, mcp_id_roundtrip failApi ⟨"2.0", some 7, "tools/list", none⟩ 7 rfl⟩

/-- Claim C3: every response the dispatcher produces carries exactly one
of result and error: a present result with no error, or a present error
with no result. -/
theorem mcp_result_xor_error (api : Api) (request : MCPRequest) :
    ((mcp_endpoint api request).result ≠ none ∧ (mcp_endpoint api request).error = none) ∨
    ((mcp_endpoint api request).result = none ∧ (mcp_endpoint api request).error ≠ none) := by
  cases hd : mcp_dispatch api request with
  | ok v => left; simp [mcp_endpoint, hd]
  | error e => right; simp [mcp_endpoint, hd]

/-- Claim C8: the initialize method never fails and is deterministic and
idempotent: for any two initialize requests against any two API oracles,
both responses carry the identical fixed result document and no error. -/
theorem init_method_fixed (api api2 : Api) (r r2 : MCPRequest)
    (h : r.method = "initialize") (h2 : r2.method = "initialize") :
    (mcp_endpoint api r).result = some initResult ∧
    (mcp_endpoint api r).error = none ∧
    (mcp_endpoint api r).result = (mcp_endpoint api2 r2).result := by
  have e1 : mcp_dispatch api r = .ok initResult := by simp [mcp_dispatch, h]
  have e2 : mcp_dispatch api2 r2 = .ok initResult := by simp [mcp_dispatch, h2]
  simp [mcp_endpoint, e1, e2]

/-- Witness for C8: two consecutive concrete initialize calls. -/
theorem init_method_fixed_witness :
    (⟨"2.0", some 1, "initialize", none⟩ : MCPRequest).method = "initialize" ∧
    (mcp_endpoint failApi ⟨"2.0", some 1, "initialize", none⟩).result = some initResult ∧
    (mcp_endpoint failApi ⟨"2.0", some 1, "initialize", none⟩).result =
      (mcp_endpoint failApi ⟨"2.0", some 2, "initialize", none⟩).result :=
  ⟨rfl,
   (init_method_fixed failApi failApi ⟨"2.0", some 1, "initialize", none⟩
     ⟨"2.0", some 2, "initialize", none⟩ rfl rfl).1,
   (init_method_fixed failApi failApi ⟨"2.0", some 1, "initialize", none⟩
     ⟨"2.0", some 2, "initialize", none⟩ rfl rfl).2.2⟩

/-- After popping a key, looking it up finds nothing. -/
theorem lookupField_eraseKey_self (k : String) (fields : List (String × Json)) :
    lookupField k (eraseKey k fields) = none := by
  induction fields with
  | nil => simp [eraseKey, lookupField]
  | cons p rest ih =>
    obtain ⟨k2, v⟩ := p
    by_cases h : k2 = k <;> simp [eraseKey, lookupField, h, ih]

/-- Popping a key leaves every other binding untouched. -/
theorem lookupField_eraseKey_ne (k k2 : String) (h : k2 ≠ k) (fields : List (String × Json)) :
    lookupField k2 (eraseKey k fields) = lookupField k2 fields := by
  induction fields with
  | nil => simp [eraseKey]
  | cons p rest ih =>
    obtain ⟨k3, v⟩ := p
    by_cases h3 : k3 = k
    · have hne : k ≠ k2 := Ne.symm h
      simp [eraseKey, lookupField, h3, hne, ih]
    · by_cases h4 : k3 = k2 <;> simp [eraseKey, lookupField, h3, h4, h, ih]

/-- Claim C5: create_task with list_id and name present issues exactly one
POST to list/(list_id)/task whose body carries the given name, the given
description or the empty string when absent, the given status or the
default "to do" when absent, and a priority field exactly when one was
supplied. -/
theorem create_task_spec (api : Api) (fields : List (String × Json)) (lid nm : Json)
    (hl : lookupField "list_id" fields = some lid)
    (hn : lookupField "name" fields = some nm) :
    ∃ body : List (String × Json),
      (create_task api (.obj fields)).2 =
        [RemoteCall.post ("list/" ++ Json.render lid ++ "/task") (.obj body)] ∧
      lookupField "name" body = some nm ∧
      lookupField "description" body =
        some ((lookupField "description" fields).getD (.str "")) ∧
      lookupField "status" body =
        some ((lookupField "status" fields).getD (.str "to do")) ∧
      lookupField "priority" body = lookupField "priority" fields := by
  cases hp : lookupField "priority" fields with
  | none =>
    refine ⟨[("name", nm),
             ("description", (lookupField "description" fields).getD (.str "")),
             ("status", (lookupField "status" fields).getD (.str "to do"))],
            ?_, ?_, ?_, ?_, ?_⟩ <;>
      simp [create_task, hl, hn, hp, apiPost, lookupField]
  | some pv =>
    refine ⟨[("name", nm),
             ("description", (lookupField "description" fields).getD (.str "")),
             ("status", (lookupField "status" fields).getD (.str "to do")),
             ("priority", pv)],
            ?_, ?_, ?_, ?_, ?_⟩ <;>
      simp [create_task, hl, hn, hp, apiPost, lookupField]

/-- Witness for C5: the spec example with list_id L1 and name Test and no
status key. -/
theorem create_task_spec_witness :
    (lookupField "list_id" [("list_id", Json.str "L1"), ("name", Json.str "Test")] =
       some (Json.str "L1") ∧
     lookupField "name" [("list_id", Json.str "L1"), ("name", Json.str "Test")] =
       some (Json.str "Test")) ∧
    (∃ body : List (String × Json),
      (create_task failApi (.obj [("list_id", Json.str "L1"), ("name", Json.str "Test")])).2 =
        [RemoteCall.post ("list/" ++ Json.render (Json.str "L1") ++ "/task") (.obj body)] ∧
      lookupField "name" body = some (Json.str "Test") ∧
      lookupField "description" body =
        some ((lookupField "description"
          [("list_id", Json.str "L1"), ("name", Json.str "Test")]).getD (.str "")) ∧
      lookupField "status" body =
        some ((lookupField "status"
          [("list_id", Json.str "L1"), ("name", Json.str "Test")]).getD (.str "to do")) ∧
      lookupField "priority" body =
        lookupField "priority" [("list_id", Json.str "L1"), ("name", Json.str "Test")]) :=
  ⟨⟨rfl, rfl⟩,
   create_task_spec failApi [("list_id", Json.str "L1"), ("name", Json.str "Test")]
     (Json.str "L1") (Json.str "Test") rfl rfl⟩

/-- Claim C6: update_task with task_id present issues exactly one PUT to
task/(task_id) whose body is the argument dict with the task_id binding
removed and every other binding passed through verbatim; the sent body
holds no task_id field. -/
theorem update_task_spec (api : Api) (fields : List (String × Json)) (tid : Json)
    (h : lookupField "task_id" fields = some tid) :
    (update_task api (.obj fields)).1.2 =
      [RemoteCall.put ("task/" ++ Json.render tid) (.obj (eraseKey "task_id" fields))] ∧
    lookupField "task_id" (eraseKey "task_id" fields) = none ∧
    (∀ k2, k2 ≠ "task_id" →
      lookupField k2 (eraseKey "task_id" fields) = lookupField k2 fields) := by
  refine ⟨?_, lookupField_eraseKey_self _ _,
          fun k2 hk => lookupField_eraseKey_ne "task_id" k2 hk fields⟩
  simp [update_task, h, apiPut]

/-- Witness for C6: the spec example with task_id T1 and name New. -/
theorem update_task_spec_witness :
    lookupField "task_id" [("task_id", Json.str "T1"), ("name", Json.str "New")] =
      some (Json.str "T1") ∧
    ((update_task failApi (.obj [("task_id", Json.str "T1"), ("name", Json.str "New")])).1.2 =
       [RemoteCall.put ("task/" ++ Json.render (Json.str "T1"))
         (.obj (eraseKey "task_id" [("task_id", Json.str "T1"), ("name", Json.str "New")]))] ∧
     lookupField "task_id"
       (eraseKey "task_id" [("task_id", Json.str "T1"), ("name", Json.str "New")]) = none ∧
     (∀ k2, k2 ≠ "task_id" →
       lookupField k2 (eraseKey "task_id" [("task_id", Json.str "T1"), ("name", Json.str "New")]) =
       lookupField k2 [("task_id", Json.str "T1"), ("name", Json.str "New")])) :=
  ⟨rfl, update_task_spec failApi [("task_id", Json.str "T1"), ("name", Json.str "New")]
     (Json.str "T1") rfl⟩

/-- Claim C10: executing the update_task tool mutates the caller-supplied
argument dict in place: whatever the remote PUT returns, the dict the
executor hands back is the original one with its task_id binding removed,
because the source pops the key rather than copying the dict. -/
theorem execute_update_task_mutates (api : Api) (fields : List (String × Json)) (tid : Json)
    (h : lookupField "task_id" fields = some tid) :
    (execute_tool api (.str "update_task") (.obj fields)).argsAfter =
      .obj (eraseKey "task_id" fields) ∧
    lookupField "task_id" (eraseKey "task_id" fields) = none := by
  have he : execute_tool api (.str "update_task") (.obj fields) =
      ⟨(update_task api (.obj fields)).1.1, (update_task api (.obj fields)).1.2,
       (update_task api (.obj fields)).2⟩ := rfl
  constructor
  · rw [he]
    simp [update_task, h, apiPut]
  · exact lookupField_eraseKey_self _ _

/-- Witness for C10: a concrete update_task invocation through the
executor, against an API oracle on which the remote PUT fails, still
leaves the argument dict without its task_id binding. -/
theorem execute_update_task_mutates_witness :
    lookupField "task_id" [("task_id", Json.str "T9"), ("status", Json.str "done")] =
      some (Json.str "T9") ∧
    ((execute_tool failApi (.str "update_task")
        (.obj [("task_id", Json.str "T9"), ("status", Json.str "done")])).argsAfter =
      .obj (eraseKey "task_id" [("task_id", Json.str "T9"), ("status", Json.str "done")]) ∧
     lookupField "task_id"
       (eraseKey "task_id" [("task_id", Json.str "T9"), ("status", Json.str "done")]) = none) :=
  ⟨rfl, execute_update_task_mutates failApi
     [("task_id", Json.str "T9"), ("status", Json.str "done")] (Json.str "T9") rfl⟩

/-- Claim C9: the tool catalog is a fixed constant of the embedding, so
every tools/list call returns the same ordered sequence with no side
effect; the sequence is non-empty (ten descriptors), every tool name in
it is unique, and it contains each of the ten names the executor
dispatches on. -/
theorem tools_catalog_names :
    get_tools_list.length = 10 ∧
    get_tools_list.map ToolInfo.name ≠ [] ∧
    (get_tools_list.map ToolInfo.name).Nodup ∧
    ∀ n ∈ ["search_workspace", "get_workspace_hierarchy", "get_workspace_tasks",
           "create_task", "get_task", "update_task", "create_task_comment",
           "get_task_comments", "get_workspace_members", "create_list"],
      n ∈ get_tools_list.map ToolInfo.name := by decide

/-- With distinct keys, lookup of a member binding finds its value. -/
theorem lookupField_of_nodup {k : String} {v : Json} {fields : List (String × Json)}
    (hN : (fields.map Prod.fst).Nodup) (hm : (k, v) ∈ fields) :
    lookupField k fields = some v := by
  induction fields with
  | nil => cases hm
  | cons p rest ih =>
    obtain ⟨k2, v2⟩ := p
    rw [List.map_cons, List.nodup_cons] at hN
    rcases List.mem_cons.mp hm with heq | hmem
    · cases heq
      simp [lookupField]
    · have hk : k2 ≠ k := by
        intro hkk
        apply hN.1
        rw [hkk]
        exact List.mem_map.mpr ⟨(k, v), hmem, rfl⟩
      simp [lookupField, hk, ih hN.2 hmem]

/-- Counterexample for C7: on the concrete example workspace,
get_workspace_members does not perform a single remote call (it performs
two), and the value it returns is not a JSON array, so it is not the
member list (which would be an array of member documents). -/
theorem members_claim_counterexample :
    ¬ ((get_workspace_members exApi).2.length = 1) ∧
    Json.isArr (okPayload (get_workspace_members exApi).1) = false ∧
    (get_workspace_members exApi).2.length = 2 := by decide

/-- Claim C7 amended: get_workspace_members performs two remote calls,
GET team and then GET team/(first team id), and returns the first team
document unchanged; the member list is a field inside that document
rather than the returned value itself. -/
theorem get_workspace_members_spec (W : Workspace)
    (hN : (endpointKeys W).Nodup) :
    get_workspace_members (apiOfWorkspace W) =
      (.ok W.teamDetail,
       [RemoteCall.get "team", RemoteCall.get ("team/" ++ W.teamId)]) := by
  have hN2 : ((endpointTable W).map Prod.fst).Nodup := hN
  have h1 : (apiOfWorkspace W).get "team" = .ok (teamsDoc W) := by
    simp [apiOfWorkspace, endpointTable, lookupField]
  have hm : ("team/" ++ W.teamId, W.teamDetail) ∈ endpointTable W := by
    simp [endpointTable]
  have h2 : (apiOfWorkspace W).get ("team/" ++ W.teamId) = .ok W.teamDetail := by
    simp [apiOfWorkspace, lookupField_of_nodup hN2 hm]
  simp [get_workspace_members, h1, h2, teamsDoc, Json.getItem, Json.getIdx,
        lookupField, Json.render]

/-- Witness for the amended C7 on the concrete example workspace. -/
theorem get_workspace_members_spec_witness :
    (endpointKeys exWorkspace).Nodup ∧
    get_workspace_members (apiOfWorkspace exWorkspace) =
      (.ok exWorkspace.teamDetail,
       [RemoteCall.get "team", RemoteCall.get ("team/" ++ exWorkspace.teamId)]) :=
  ⟨by decide, get_workspace_members_spec exWorkspace (by decide)⟩

/-- On a task document of the mock remote, the name check of
search_workspace evaluates to the case-insensitive containment test. -/
theorem matchesQuery_task (q : String) (t : WTask) :
    matchesQuery (.str q) (WTask.toJson t) = .ok (nameMatches q t.name) := by
  simp [matchesQuery, pyLower, WTask.toJson, Json.getItem, lookupField, nameMatches, pyInStr]

/-- On a list document of the mock remote, the name check of
search_workspace evaluates to the case-insensitive containment test. -/
theorem matchesQuery_list (q : String) (l : WList) :
    matchesQuery (.str q) (WList.toJson l) = .ok (nameMatches q l.name) := by
  simp [matchesQuery, pyLower, WList.toJson, Json.getItem, lookupField, nameMatches, pyInStr]

/-- The task loop of search_workspace keeps exactly the tasks whose name
matches, appended in order to the accumulator. -/
theorem searchTasksLoop_spec (q : String) (ts : List WTask) (acc : List Json) :
    searchTasksLoop (.str q) (ts.map WTask.toJson) acc =
      .ok (acc ++ (ts.filter (fun t => nameMatches q t.name)).map WTask.toJson) := by
  induction ts generalizing acc with
  | nil => simp [searchTasksLoop]
  | cons t rest ih =>
    rw [List.map_cons]
    simp only [searchTasksLoop, matchesQuery_task]
    cases hb : nameMatches q t.name <;>
      simp [ih, hb, List.filter_cons]

/-- The list loop of search_workspace: given that the oracle answers each
list task endpoint with the task document of that list, the loop returns the
accumulated matching list documents and matching task documents of all
visited lists, in fan-out order. -/
theorem searchListsLoop_spec (api : Api) (q : String) (ls : List WList)
    (hget : ∀ l ∈ ls,
      api.get ("list/" ++ l.id ++ "/task?archived=false") = .ok (tasksDoc l))
    (listAcc taskAcc : List Json) (tr : List RemoteCall) :
    ∃ tr2 : List RemoteCall,
      searchListsLoop api (.str q) (ls.map WList.toJson) listAcc taskAcc tr =
        (.ok (listAcc ++ (ls.filter (fun l => nameMatches q l.name)).map WList.toJson,
              taskAcc ++
                ((ls.flatMap WList.tasks).filter (fun t => nameMatches q t.name)).map WTask.toJson),
         tr2) := by
  induction ls generalizing listAcc taskAcc tr with
  | nil => exact ⟨tr, by simp [searchListsLoop]⟩
  | cons l rest ih =>
    have h0 : api.get ("list/" ++ l.id ++ "/task?archived=false") = .ok (tasksDoc l) :=
      hget l (List.mem_cons_self l rest)
    have hrest : ∀ l2 ∈ rest,
        api.get ("list/" ++ l2.id ++ "/task?archived=false") = .ok (tasksDoc l2) :=
      fun l2 h2 => hget l2 (List.mem_cons_of_mem l h2)
    have hid : (WList.toJson l).getItem "id" = .ok (.str l.id) := by
      simp [WList.toJson, Json.getItem, lookupField]
    have htasks : (tasksDoc l).getItem "tasks" = .ok (.arr (l.tasks.map WTask.toJson)) := by
      simp [tasksDoc, Json.getItem, lookupField]
    rw [List.map_cons]
    simp only [searchListsLoop, matchesQuery_list, hid, Json.render, h0, htasks, Json.asArr,
               searchTasksLoop_spec]
    obtain ⟨tr2, htr⟩ := ih hrest
      (if nameMatches q l.name then listAcc ++ [WList.toJson l] else listAcc)
      (taskAcc ++ ((l.tasks.filter (fun t => nameMatches q t.name)).map WTask.toJson))
      (tr ++ [RemoteCall.get ("list/" ++ l.id ++ "/task?archived=false")])
    rw [htr]
    refine ⟨tr2, ?_⟩
    cases hb : nameMatches q l.name <;>
      simp [hb, List.filter_cons, List.filter_append, List.flatMap_cons]

/-- The space loop of search_workspace: given that the oracle answers the
list endpoint of each space and the task endpoint of each of its lists
with the corresponding documents, the loop returns the accumulated
matching list and task documents of all visited spaces, in fan-out
order. -/
theorem searchSpacesLoop_spec (api : Api) (q : String) (sps : List WSpace)
    (hs : ∀ sp ∈ sps,
      api.get ("space/" ++ sp.id ++ "/list?archived=false") = .ok (listsDoc sp))
    (hl : ∀ sp ∈ sps, ∀ l ∈ sp.lists,
      api.get ("list/" ++ l.id ++ "/task?archived=false") = .ok (tasksDoc l))
    (listAcc taskAcc : List Json) (tr : List RemoteCall) :
    ∃ tr2 : List RemoteCall,
      searchSpacesLoop api (.str q) (sps.map WSpace.toJson) listAcc taskAcc tr =
        (.ok (listAcc ++
                ((sps.flatMap WSpace.lists).filter
                  (fun l => nameMatches q l.name)).map WList.toJson,
              taskAcc ++
                ((sps.flatMap (fun sp => sp.lists.flatMap WList.tasks)).filter
                  (fun t => nameMatches q t.name)).map WTask.toJson),
         tr2) := by
  induction sps generalizing listAcc taskAcc tr with
  | nil => exact ⟨tr, by simp [searchSpacesLoop]⟩
  | cons sp rest ih =>
    have h0 : api.get ("space/" ++ sp.id ++ "/list?archived=false") = .ok (listsDoc sp) :=
      hs sp (List.mem_cons_self sp rest)
    have hsrest : ∀ sp2 ∈ rest,
        api.get ("space/" ++ sp2.id ++ "/list?archived=false") = .ok (listsDoc sp2) :=
      fun sp2 h2 => hs sp2 (List.mem_cons_of_mem sp h2)
    have hlrest : ∀ sp2 ∈ rest, ∀ l ∈ sp2.lists,
        api.get ("list/" ++ l.id ++ "/task?archived=false") = .ok (tasksDoc l) :=
      fun sp2 h2 => hl sp2 (List.mem_cons_of_mem sp h2)
    have hid : (WSpace.toJson sp).getItem "id" = .ok (.str sp.id) := by
      simp [WSpace.toJson, Json.getItem, lookupField]
    have hlists : (listsDoc sp).getItem "lists" = .ok (.arr (sp.lists.map WList.toJson)) := by
      simp [listsDoc, Json.getItem, lookupField]
    rw [List.map_cons]
    simp only [searchSpacesLoop, hid, Json.render, h0, hlists, Json.asArr]
    obtain ⟨trL, htrL⟩ := searchListsLoop_spec api q sp.lists
      (hl sp (List.mem_cons_self sp rest)) listAcc taskAcc
      (tr ++ [RemoteCall.get ("space/" ++ sp.id ++ "/list?archived=false")])
    rw [htrL]
    obtain ⟨tr2, htr2⟩ := ih hsrest hlrest
      (listAcc ++ ((sp.lists.filter (fun l => nameMatches q l.name)).map WList.toJson))
      (taskAcc ++
        (((sp.lists.flatMap WList.tasks).filter
          (fun t => nameMatches q t.name)).map WTask.toJson))
      trL
    refine ⟨tr2, ?_⟩
    show searchSpacesLoop api (Json.str q) (List.map WSpace.toJson rest) _ _ trL = _
    rw [htr2]
    simp [List.flatMap_cons, List.filter_append]

/-- Claim C4: for every workspace contents (with distinct remote endpoint
keys), search_workspace with query q returns the document whose tasks
field holds exactly the fetched tasks with a case-insensitive name match,
whose lists field holds exactly the fetched lists with a case-insensitive
name match, and whose spaces field holds all fetched spaces unfiltered;
with no matching task or list name the two filters are empty and the
spaces are still all returned. -/
theorem search_workspace_spec (W : Workspace) (q : String)
    (hN : (endpointKeys W).Nodup) :
    (search_workspace (apiOfWorkspace W) (.str q)).1 =
      .ok (.obj [
        ("tasks", .arr ((W.allTasks.filter (fun t => nameMatches q t.name)).map WTask.toJson)),
        ("lists", .arr ((W.allLists.filter (fun l => nameMatches q l.name)).map WList.toJson)),
        ("spaces", .arr (W.spaces.map WSpace.toJson))]) := by
  have hN2 : ((endpointTable W).map Prod.fst).Nodup := hN
  have hteam : (apiOfWorkspace W).get "team" = .ok (teamsDoc W) := by
    simp [apiOfWorkspace, endpointTable, lookupField]
  have hmsp : ("team/" ++ W.teamId ++ "/space?archived=false", spacesDoc W) ∈ endpointTable W := by
    unfold endpointTable
    exact List.mem_cons_of_mem _ (List.mem_cons_of_mem _ (List.mem_cons_self _ _))
  have hspaces : (apiOfWorkspace W).get ("team/" ++ W.teamId ++ "/space?archived=false") =
      .ok (spacesDoc W) := by
    simp [apiOfWorkspace, lookupField_of_nodup hN2 hmsp]
  have hs : ∀ sp ∈ W.spaces,
      (apiOfWorkspace W).get ("space/" ++ sp.id ++ "/list?archived=false") =
        .ok (listsDoc sp) := by
    intro sp hsp
    have hm : ("space/" ++ sp.id ++ "/list?archived=false", listsDoc sp) ∈ endpointTable W := by
      unfold endpointTable
      refine List.mem_cons_of_mem _ (List.mem_cons_of_mem _ (List.mem_cons_of_mem _ ?_))
      exact List.mem_flatMap.mpr ⟨sp, hsp, List.mem_cons_self _ _⟩
    simp [apiOfWorkspace, lookupField_of_nodup hN2 hm]
  have hl : ∀ sp ∈ W.spaces, ∀ l ∈ sp.lists,
      (apiOfWorkspace W).get ("list/" ++ l.id ++ "/task?archived=false") =
        .ok (tasksDoc l) := by
    intro sp hsp l hml
    have hm : ("list/" ++ l.id ++ "/task?archived=false", tasksDoc l) ∈ endpointTable W := by
      unfold endpointTable
      refine List.mem_cons_of_mem _ (List.mem_cons_of_mem _ (List.mem_cons_of_mem _ ?_))
      exact List.mem_flatMap.mpr
        ⟨sp, hsp, List.mem_cons_of_mem _ (List.mem_map.mpr ⟨l, hml, rfl⟩)⟩
    simp [apiOfWorkspace, lookupField_of_nodup hN2 hm]
  have hteams2 : (teamsDoc W).getItem "teams" =
      .ok (.arr [.obj (("id", .str W.teamId) :: W.teamExtra)]) := by
    simp [teamsDoc, Json.getItem, lookupField]
  have hidx : (Json.arr [.obj (("id", .str W.teamId) :: W.teamExtra)]).getIdx 0 =
      .ok (.obj (("id", .str W.teamId) :: W.teamExtra)) := by
    simp [Json.getIdx]
  have hid : (Json.obj (("id", .str W.teamId) :: W.teamExtra)).getItem "id" =
      .ok (.str W.teamId) := by
    simp [Json.getItem, lookupField]
  have hspval : (spacesDoc W).getItem "spaces" = .ok (.arr (W.spaces.map WSpace.toJson)) := by
    simp [spacesDoc, Json.getItem, lookupField]
  obtain ⟨tr2, hloop⟩ := searchSpacesLoop_spec (apiOfWorkspace W) q W.spaces hs hl [] []
    ([RemoteCall.get "team"] ++
     [RemoteCall.get ("team/" ++ W.teamId ++ "/space?archived=false")])
  simp only [search_workspace, hteam, hteams2, hidx, hid, Json.render, hspaces, hspval,
             Json.asArr, hloop]
  simp [Workspace.allTasks, Workspace.allLists]

/-- Witness for C4 on the concrete example workspace with query bug: the
task named Fix login bug and the list named Bugs match case-insensitively,
the space is returned unfiltered. -/
theorem search_workspace_spec_witness :
    (endpointKeys exWorkspace).Nodup ∧
    (search_workspace (apiOfWorkspace exWorkspace) (.str "bug")).1 =
      .ok (.obj [
        ("tasks", .arr ((exWorkspace.allTasks.filter
          (fun t => nameMatches "bug" t.name)).map WTask.toJson)),
        ("lists", .arr ((exWorkspace.allLists.filter
          (fun l => nameMatches "bug" l.name)).map WList.toJson)),
        ("spaces", .arr (exWorkspace.spaces.map WSpace.toJson))]) :=
  ⟨by decide, search_workspace_spec exWorkspace "bug" (by decide)⟩
